import Mathlib

/-!
Shallow embedding of the produce-ripeness application: the AI-gateway module
(`identifyProduce`, `getRipenessPrediction`) and the interaction controller
(`startAnalysis`, `continueAnalysis`, `handleSuggestion`, `handleCapture`,
`filteredProduce`, `getDaysText`).  External calls (file encoding, the two
vision-AI calls, camera capture) are modelled by explicit outcome values; the
JavaScript runtime values a prediction response parses to are modelled by
`JsonVal`.
-/

namespace VegnFruit

/-- A JavaScript runtime JSON value, as produced by a JSON parse. -/
inductive JsonVal : Type
  | num (q : ℚ)
  | str (s : String)
  | boolean (b : Bool)
  | null
  | obj (fields : List (String × JsonVal))
  | arr (elems : List JsonVal)

/-- Property access `o.k` on a parsed value: `none` models JS `undefined`
(missing key, or access on a non-object). -/
def JsonVal.getField : JsonVal → String → Option JsonVal
  | .obj fields, k => (fields.find? (fun kv => kv.1 == k)).map (fun kv => kv.2)
  | _, _ => none

/-- JS `typeof` applied to an optional property value: a missing property is
`undefined`, and `typeof null` is `"object"`, as in JavaScript. -/
def typeofJs : Option JsonVal → String
  | none => "undefined"
  | some (.num _) => "number"
  | some (.str _) => "string"
  | some (.boolean _) => "boolean"
  | some .null => "object"
  | some (.obj _) => "object"
  | some (.arr _) => "object"

/-- One entry of the static produce catalog (`ProduceItem` in `types.ts`). -/
structure ProduceItem where
  value : String
  label : String
  icon : String
  deriving DecidableEq, Repr

/-- JS `String.prototype.toLowerCase` (character-wise lowering). -/
def toLowerCase (s : String) : String := String.mk (s.data.map Char.toLower)

/-- JS `String.prototype.trim`: strip leading and trailing whitespace. -/
def jsTrim (s : String) : String :=
  String.mk
    (((s.data.dropWhile Char.isWhitespace).reverse.dropWhile Char.isWhitespace).reverse)

/-- JS `String.prototype.includes`: `needle` occurs as a contiguous substring
of `hay`. -/
def jsIncludes (hay needle : String) : Bool :=
  (List.range (hay.data.length + 1)).any
    (fun i => (hay.data.drop i).take needle.data.length == needle.data)

/-- The outcome of an awaited external operation: a value, or a thrown error /
rejected promise. -/
inductive Outcome (α : Type) : Type
  | ok (a : α)
  | thrown
  deriving DecidableEq, Repr

/-- The post-response logic of `identifyProduce` (geminiService): given the
outcome of the generateContent call (its response text, or a throw), resolve
the detected name to a catalog key, to `"None"`, or to `''` when no catalog
label contains it; a thrown call is re-thrown as the gateway error. -/
def identifyProduce (catalog : List ProduceItem) (call : Outcome String) :
    Except String String :=
  match call with
  | .thrown => .error "Failed to identify produce from Gemini API."
  | .ok responseText =>
    let detectedProduceName := jsTrim responseText
    if toLowerCase detectedProduceName = "none" then
      .ok "None"
    else
      match catalog.find?
          (fun p => jsIncludes (toLowerCase p.label) (toLowerCase detectedProduceName)) with
      | some foundProduce => .ok foundProduce.value
      | none => .ok ""

/-- The "Basic validation" of the parsed prediction response (geminiService):
`typeof` checks on the six required top-level fields, and on nothing else. -/
def validPredictionShape (result : JsonVal) : Bool :=
  typeofJs (result.getField "days") == "number" &&
  typeofJs (result.getField "status") == "string" &&
  typeofJs (result.getField "recommendation") == "string" &&
  typeofJs (result.getField "infection_details") == "object" &&
  typeofJs (result.getField "isPartlyMissing") == "boolean" &&
  typeofJs (result.getField "missingPartDescription") == "string"

/-- The body of the `try` block of `getRipenessPrediction` after the call
returns: JSON parsing (`none` models a parse throw) followed by the shape
validation, which throws "Invalid JSON structure from API." on failure. -/
def predictionTryBody (parsed : Option JsonVal) : Except String JsonVal :=
  match parsed with
  | none => .error "SyntaxError: unexpected token in JSON"
  | some result =>
    if validPredictionShape result then .ok result
    else .error "Invalid JSON structure from API."

/-- `getRipenessPrediction` (geminiService): the single `catch` block catches
both a thrown call and any throw inside the `try` body (parse error or the
internal validation error) and re-throws the one generic gateway error. -/
def getRipenessPrediction (call : Outcome (Option JsonVal)) :
    Except String JsonVal :=
  match call with
  | .thrown => .error "Failed to get prediction from Gemini API."
  | .ok parsed =>
    match predictionTryBody parsed with
    | .ok result => .ok result
    | .error _ => .error "Failed to get prediction from Gemini API."

/-- The current photo: only its MIME type is observable to the embedded logic
(the bytes themselves are consumed by the modelled encoding step). -/
structure ImageFile where
  mimeType : String
  deriving DecidableEq, Repr

/-- The controller's state variables (the `useState` hooks of `App`). -/
structure AppState where
  selectedProduceKey : String
  imageFile : Option ImageFile
  prediction : Option JsonVal
  isLoading : Bool
  loadingText : String
  error : Option String
  isCameraOpen : Bool
  suggestedProduceKey : Option String

/-- Outcomes of the external operations one handler run may await:
`fileToBase64`, the identification call (its response text), and the
prediction call (its response parsed as JSON, `none` when the text is not
valid JSON). -/
structure Oracle where
  encode : Outcome String
  identifyResponse : Outcome String
  predictResponse : Outcome (Option JsonVal)

/-- Observable result of one handler run: the final state, which gateway
calls were made (with the label the prediction call received), whether
`setIsLoading(true)` ran, and whether a rejection escaped the handler
uncaught. -/
structure RunResult where
  state : AppState
  identifyCalled : Bool
  predictLabel : Option String
  loadingSet : Bool
  unhandled : Bool

/-- `resetAnalysisState`: clears prediction, error and pending suggestion. -/
def resetAnalysisState (s : AppState) : AppState :=
  { s with prediction := none, error := none, suggestedProduceKey := none }

/-- `continueAnalysis(produceKey, ...)`: looks the key up in the catalog,
marks loading, runs the prediction call inside try/catch/finally.
`idCalled`/`ls` carry whether the identification call / `setIsLoading(true)`
already happened earlier in the same run. -/
def continueAnalysis (catalog : List ProduceItem) (s : AppState)
    (produceKey : String) (o : Oracle) (idCalled : Bool) (ls : Bool) :
    RunResult :=
  match catalog.find? (fun p => p.value == produceKey) with
  | none =>
    { state := { s with error := some "Invalid produce selected for analysis.",
                        isLoading := false },
      identifyCalled := idCalled, predictLabel := none, loadingSet := ls,
      unhandled := false }
  | some produce =>
    let s1 : AppState :=
      { s with isLoading := true, error := none,
               loadingText := "Analyzing ripeness..." }
    match getRipenessPrediction o.predictResponse with
    | .ok result =>
      { state := { s1 with prediction := some result, isLoading := false },
        identifyCalled := idCalled, predictLabel := some produce.label,
        loadingSet := true, unhandled := false }
    | .error _ =>
      { state := { s1 with
          error := some "Failed to complete analysis. The model may be unavailable. Please try again later.",
          isLoading := false },
        identifyCalled := idCalled, predictLabel := some produce.label,
        loadingSet := true, unhandled := false }

/-- `startAnalysis(fileToAnalyze?)`: input guard, then encode → identify →
dispatch on the detected value ("None" / differing non-empty suggestion /
fall through to `continueAnalysis`), with the catch block converting any
throw into the identification error message. -/
def startAnalysis (catalog : List ProduceItem) (s : AppState) (o : Oracle)
    (fileToAnalyze : Option ImageFile) : RunResult :=
  let currentFile := fileToAnalyze.or s.imageFile
  let selectedProduce := catalog.find? (fun p => p.value == s.selectedProduceKey)
  if currentFile.isNone || selectedProduce.isNone then
    { state := { s with error := some "Please select a produce item and an image first." },
      identifyCalled := false, predictLabel := none, loadingSet := false,
      unhandled := false }
  else
    let s1 := resetAnalysisState { s with isLoading := true }
    let s2 : AppState := { s1 with loadingText := "Identifying produce..." }
    match o.encode with
    | .thrown =>
      { state := { s2 with
          error := some "An AI error occurred during identification. Please try again.",
          isLoading := false },
        identifyCalled := false, predictLabel := none, loadingSet := true,
        unhandled := false }
    | .ok _base64Image =>
      match identifyProduce catalog o.identifyResponse with
      | .error _ =>
        { state := { s2 with
            error := some "An AI error occurred during identification. Please try again.",
            isLoading := false },
          identifyCalled := true, predictLabel := none, loadingSet := true,
          unhandled := false }
      | .ok detectedProduceValue =>
        if detectedProduceValue = "None" then
          { state := { s2 with
              error := some "No recognizable fruit or vegetable was found. Please try another photo.",
              isLoading := false },
            identifyCalled := true, predictLabel := none, loadingSet := true,
            unhandled := false }
        else if detectedProduceValue != "" &&
            detectedProduceValue != s.selectedProduceKey then
          { state := { s2 with suggestedProduceKey := some detectedProduceValue,
                               isLoading := false },
            identifyCalled := true, predictLabel := none, loadingSet := true,
            unhandled := false }
        else
          continueAnalysis catalog s2 s.selectedProduceKey o true true

/-- JS truthiness of the nullable suggested key. -/
def jsTruthyKey : Option String → Bool
  | some k => k != ""
  | none => false

/-- `handleSuggestion(useSuggestion)`: early return without an image; picks
the produce to analyze, updates the selection on confirm, clears the
suggestion, encodes the image (with NO try/catch: a rejection escapes
uncaught) and runs `continueAnalysis`. -/
def handleSuggestion (catalog : List ProduceItem) (s : AppState) (o : Oracle)
    (useSuggestion : Bool) : RunResult :=
  match s.imageFile with
  | none =>
    { state := s, identifyCalled := false, predictLabel := none,
      loadingSet := false, unhandled := false }
  | some _imageFile =>
    let produceToAnalyze :=
      if useSuggestion && jsTruthyKey s.suggestedProduceKey then
        s.suggestedProduceKey.getD s.selectedProduceKey
      else s.selectedProduceKey
    let s1 : AppState :=
      if useSuggestion && jsTruthyKey s.suggestedProduceKey then
        { s with selectedProduceKey := s.suggestedProduceKey.getD s.selectedProduceKey }
      else s
    let s2 : AppState := { s1 with suggestedProduceKey := none }
    match o.encode with
    | .thrown =>
      { state := s2, identifyCalled := false, predictLabel := none,
        loadingSet := false, unhandled := true }
    | .ok _base64Image =>
      continueAnalysis catalog s2 produceToAnalyze o false false

/-- Outcome of the capture steps of `handleCapture`: refs missing, a throw
inside the `try` block (no canvas context, no blob), or a captured frame. -/
inductive CaptureOutcome : Type
  | notReady
  | failed (msg : String)
  | captured (f : ImageFile)

/-- `handleCapture`: converts capture failures into error messages and closes
the camera; on success stores the file, closes the camera, resets analysis
state and runs the full `startAnalysis` pipeline on the captured file. -/
def handleCapture (catalog : List ProduceItem) (s : AppState) (o : Oracle)
    (cap : CaptureOutcome) : RunResult :=
  match cap with
  | .notReady =>
    { state := { s with error := some "Camera is not ready. Please try again.",
                        isCameraOpen := false },
      identifyCalled := false, predictLabel := none, loadingSet := false,
      unhandled := false }
  | .failed msg =>
    { state := { s with error := some ("Failed to capture image: " ++ msg),
                        isCameraOpen := false },
      identifyCalled := false, predictLabel := none, loadingSet := false,
      unhandled := false }
  | .captured f =>
    let s1 := resetAnalysisState { s with imageFile := some f, isCameraOpen := false }
    startAnalysis catalog s1 o (some f)

/-- The error path of the camera-stream effect: `getUserMedia` rejected. -/
def cameraStreamError (s : AppState) : AppState :=
  { s with
    error := some "Could not access the camera. Please check browser permissions and ensure no other app is using it.",
    isCameraOpen := false }

/-- `filteredProduce`: empty while the search input is not focused, else the
catalog filtered by case-insensitive substring match on labels. -/
def filteredProduce (catalog : List ProduceItem) (searchText : String)
    (isSearchFocused : Bool) : List ProduceItem :=
  if !isSearchFocused then []
  else
    catalog.filter
      (fun p => jsIncludes (toLowerCase p.label) (toLowerCase searchText))

/-- JS `Number.prototype.toFixed(1)` on the model's exact rationals: nearest
tenth, ties away from zero. -/
def roundTenths (q : ℚ) : Int :=
  if 0 ≤ q then ⌊q * 10 + 1 / 2⌋ else -⌊-q * 10 + 1 / 2⌋

/-- Rendering of `roundTenths`: sign, integer part, dot, one digit. -/
def toFixed1 (q : ℚ) : String :=
  let n := roundTenths q
  let sign := if n < 0 then "-" else ""
  sign ++ toString (n.natAbs / 10) ++ "." ++ toString (n.natAbs % 10)

/-- `getDaysText(days)`: the three-way branch on the days value. -/
def getDaysText (days : ℚ) : String :=
  if days > 1 then toFixed1 days ++ " days"
  else if 0 ≤ days ∧ days ≤ 1 then toFixed1 days ++ " days (Ready!)"
  else toFixed1 days ++ " days (Past Peak)"

/-- Modelled from the spec: the fixed produce catalog `PRODUCE` (its source,
`constants.ts`, is not among the provided files).  The spec fixes it as an
ordered list of key/label/icon entries, names "apple" as the default key, and
its scenarios use entries with keys "apple" and "banana" and labels "Apple"
and "Banana". -/
def PRODUCE : List ProduceItem :=
  [⟨"apple", "Apple", "🍎"⟩, ⟨"banana", "Banana", "🍌"⟩]

/-- Any string contains the empty string. -/
lemma jsIncludes_empty (hay : String) : jsIncludes hay "" = true := by
  simp only [jsIncludes, List.any_eq_true, List.mem_range]
  exact ⟨0, Nat.succ_pos _, by simp⟩

lemma roundTenths_neg_two : roundTenths (-2) = -20 := by
  rw [roundTenths, if_neg (by norm_num)]
  norm_num

lemma roundTenths_half : roundTenths (1 / 2) = 5 := by
  rw [roundTenths, if_pos (by norm_num)]
  norm_num

lemma roundTenths_three_point_two : roundTenths (16 / 5) = 32 := by
  rw [roundTenths, if_pos (by norm_num)]
  norm_num

lemma toFixed1_neg_two : toFixed1 (-2) = "-2.0" := by
  simp only [toFixed1, roundTenths_neg_two]
  rfl

lemma toFixed1_half : toFixed1 (1 / 2) = "0.5" := by
  simp only [toFixed1, roundTenths_half]
  rfl

lemma toFixed1_three_point_two : toFixed1 (16 / 5) = "3.2" := by
  simp only [toFixed1, roundTenths_three_point_two]
  rfl

/-- C8: for a stored days value, `getDaysText` renders the one-decimal value
followed by " days" when days > 1, the "(Ready!)" variant when 0 ≤ days ≤ 1,
and the "(Past Peak)" variant when days < 0; in particular -2.0 renders
"-2.0 days (Past Peak)", 0.5 renders the "(Ready!)" variant and 3.2 the
plain days text. -/
theorem getDaysText_branches (d : ℚ) :
    (1 < d → getDaysText d = toFixed1 d ++ " days") ∧
    (0 ≤ d ∧ d ≤ 1 → getDaysText d = toFixed1 d ++ " days (Ready!)") ∧
    (d < 0 → getDaysText d = toFixed1 d ++ " days (Past Peak)") ∧
    getDaysText (-2) = "-2.0 days (Past Peak)" ∧
    getDaysText (1 / 2) = "0.5 days (Ready!)" ∧
    getDaysText (16 / 5) = "3.2 days" := by
  refine ⟨?_, ?_, ?_, ?_, ?_, ?_⟩
  · intro h
    rw [getDaysText, if_pos h]
  · intro h
    rw [getDaysText, if_neg (by linarith [h.2]), if_pos h]
  · intro h
    rw [getDaysText, if_neg (by linarith), if_neg (fun hc => by linarith [hc.1])]
  · rw [getDaysText, if_neg (by norm_num), if_neg (by norm_num), toFixed1_neg_two]
    rfl
  · rw [getDaysText, if_neg (by norm_num), if_pos (by norm_num), toFixed1_half]
    rfl
  · rw [getDaysText, if_pos (by norm_num), toFixed1_three_point_two]
    rfl

/-- Witness for C8 at days = 3.2, 0.5 and -2. -/
theorem getDaysText_branches_witness :
    getDaysText (16 / 5) = toFixed1 (16 / 5) ++ " days" ∧
    getDaysText (1 / 2) = toFixed1 (1 / 2) ++ " days (Ready!)" ∧
    getDaysText (-2) = toFixed1 (-2) ++ " days (Past Peak)" :=
  ⟨(getDaysText_branches (16 / 5)).1 (by norm_num),
   (getDaysText_branches (1 / 2)).2.1 (by norm_num),
   (getDaysText_branches (-2)).2.2.1 (by norm_num)⟩

/-- C9: while focused, the filtered result set is exactly the catalog entries
whose label contains the input case-insensitively, in catalog order; the
empty input yields the full catalog and a non-matching input the empty set;
while not focused the filtered set is empty. -/
theorem filteredProduce_search (catalog : List ProduceItem) (searchText : String) :
    filteredProduce catalog searchText false = [] ∧
    (∀ p, p ∈ filteredProduce catalog searchText true ↔
      p ∈ catalog ∧ jsIncludes (toLowerCase p.label) (toLowerCase searchText) = true) ∧
    (filteredProduce catalog searchText true).Sublist catalog ∧
    filteredProduce catalog "" true = catalog ∧
    ((∀ p ∈ catalog, jsIncludes (toLowerCase p.label) (toLowerCase searchText) = false) →
      filteredProduce catalog searchText true = []) := by
  refine ⟨rfl, ?_, ?_, ?_, ?_⟩
  · intro p
    simp [filteredProduce, List.mem_filter]
  · exact List.filter_sublist catalog
  · have h : toLowerCase "" = "" := rfl
    simp [filteredProduce, h, jsIncludes_empty]
  · intro h
    rw [show filteredProduce catalog searchText true =
          catalog.filter (fun p => jsIncludes (toLowerCase p.label) (toLowerCase searchText))
        from rfl,
      List.filter_eq_nil_iff]
    intro p hp
    simp [h p hp]

/-- Witness for C9: a non-matching and the empty input on the catalog. -/
theorem filteredProduce_search_witness :
    filteredProduce PRODUCE "zzz" true = [] ∧
    filteredProduce PRODUCE "" true = PRODUCE :=
  ⟨(filteredProduce_search PRODUCE "zzz").2.2.2.2 (by decide),
   (filteredProduce_search PRODUCE "").2.2.2.1⟩

/-- C4 (amended): on a successful call, `identifyProduce` returns `"None"`,
or a catalog entry's key resolved by case-insensitive substring matching of
the trimmed response against catalog labels, or the empty string when no
label matches. -/
theorem identifyProduce_resolves_or_blank (catalog : List ProduceItem)
    (text v : String)
    (h : identifyProduce catalog (.ok text) = .ok v) :
    v = "None" ∨ v = "" ∨
      ∃ p ∈ catalog, v = p.value ∧
        jsIncludes (toLowerCase p.label) (toLowerCase (jsTrim text)) = true := by
  simp only [identifyProduce] at h
  by_cases hn : toLowerCase (jsTrim text) = "none"
  · rw [if_pos hn] at h
    exact Or.inl (Except.ok.inj h).symm
  · rw [if_neg hn] at h
    cases hf : catalog.find?
        (fun p => jsIncludes (toLowerCase p.label) (toLowerCase (jsTrim text))) with
    | none =>
      rw [hf] at h
      exact Or.inr (Or.inl (Except.ok.inj h).symm)
    | some p =>
      rw [hf] at h
      have hp := List.find?_some hf
      exact Or.inr (Or.inr
        ⟨p, List.mem_of_find?_eq_some hf, (Except.ok.inj h).symm, hp⟩)

/-- Witness for C4 (amended): the response "Banana" resolves to the catalog
key "banana". -/
theorem identifyProduce_resolves_or_blank_witness :
    "banana" = "None" ∨ "banana" = "" ∨
      ∃ p ∈ PRODUCE, "banana" = p.value ∧
        jsIncludes (toLowerCase p.label) (toLowerCase (jsTrim "Banana")) = true :=
  identifyProduce_resolves_or_blank PRODUCE "Banana" "banana" rfl

/-- C4 counterexample: the successful response "Dragonfruit" makes
`identifyProduce` return the empty string, which is neither a catalog key
nor the literal "None". -/
theorem identifyProduce_blank_cex :
    identifyProduce PRODUCE (.ok "Dragonfruit") = .ok "" ∧
    (∀ p ∈ PRODUCE, p.value ≠ "") ∧ ("" : String) ≠ "None" :=
  ⟨rfl, by decide, by decide⟩

/-- A parsed prediction response whose nested `infection_details` object is
missing all three required nested fields. -/
def emptyInfectionResponse : JsonVal :=
  .obj [("days", .num 3), ("status", .str "Ripe"),
        ("recommendation", .str "Eat within two days."),
        ("infection_details", .obj []),
        ("isPartlyMissing", .boolean false),
        ("missingPartDescription", .str "")]

/-- A parsed prediction response missing the required top-level `status`
field. -/
def missingStatusResponse : JsonVal :=
  .obj [("days", .num 3),
        ("recommendation", .str "Eat within two days."),
        ("infection_details",
          .obj [("type", .str ""), ("name", .str ""), ("cause", .str "")]),
        ("isPartlyMissing", .boolean false),
        ("missingPartDescription", .str "")]

/-- C3 counterexample: a response whose nested `infection_details` fields are
all missing is accepted (the prediction is returned, hence stored), and a
response missing the top-level `status` field fails with exactly the same
generic error a failed call produces, not a distinct validation error. -/
theorem getRipenessPrediction_validation_cex :
    getRipenessPrediction (.ok (some emptyInfectionResponse)) =
      .ok emptyInfectionResponse ∧
    getRipenessPrediction (.ok (some missingStatusResponse)) =
      .error "Failed to get prediction from Gemini API." ∧
    getRipenessPrediction .thrown =
      .error "Failed to get prediction from Gemini API." :=
  ⟨rfl, rfl, rfl⟩

/-- C3 (amended): a parsed response violating the top-level shape checks
(a required top-level field missing or of the wrong type) makes
`getRipenessPrediction` fail — though with the same generic gateway error
used for call failures, the internal validation error being swallowed by the
shared catch — and `continueAnalysis` then stores no prediction, surfaces the
analysis error message and clears the loading flag; nested
`infection_details` fields are not validated. -/
theorem getRipenessPrediction_invalid_shape (j : JsonVal)
    (hj : validPredictionShape j = false)
    (catalog : List ProduceItem) (s : AppState) (o : Oracle)
    (key : String) (e : ProduceItem) (ic ls : Bool)
    (hfind : catalog.find? (fun p => p.value == key) = some e)
    (hpr : o.predictResponse = .ok (some j)) :
    getRipenessPrediction (.ok (some j)) =
      .error "Failed to get prediction from Gemini API." ∧
    (continueAnalysis catalog s key o ic ls).state.prediction = s.prediction ∧
    (continueAnalysis catalog s key o ic ls).state.error =
      some "Failed to complete analysis. The model may be unavailable. Please try again later." ∧
    (continueAnalysis catalog s key o ic ls).state.isLoading = false := by
  have hg : getRipenessPrediction (.ok (some j)) =
      .error "Failed to get prediction from Gemini API." := by
    simp [getRipenessPrediction, predictionTryBody, hj]
  refine ⟨hg, ?_, ?_, ?_⟩ <;>
    simp [continueAnalysis, hfind, hpr, hg]

/-- A representative controller state: "apple" selected, an image loaded. -/
def sampleState : AppState :=
  { selectedProduceKey := "apple", imageFile := some ⟨"image/jpeg"⟩,
    prediction := none, isLoading := false, loadingText := "Analyzing...",
    error := none, isCameraOpen := false, suggestedProduceKey := none }

/-- Witness for C3 (amended): the missing-`status` response at the concrete
catalog and state. -/
theorem getRipenessPrediction_invalid_shape_witness :
    getRipenessPrediction (.ok (some missingStatusResponse)) =
      .error "Failed to get prediction from Gemini API." ∧
    (continueAnalysis PRODUCE sampleState "apple"
        ⟨.ok "b64", .ok "Apple", .ok (some missingStatusResponse)⟩
        true true).state.prediction = sampleState.prediction ∧
    (continueAnalysis PRODUCE sampleState "apple"
        ⟨.ok "b64", .ok "Apple", .ok (some missingStatusResponse)⟩
        true true).state.error =
      some "Failed to complete analysis. The model may be unavailable. Please try again later." ∧
    (continueAnalysis PRODUCE sampleState "apple"
        ⟨.ok "b64", .ok "Apple", .ok (some missingStatusResponse)⟩
        true true).state.isLoading = false :=
  getRipenessPrediction_invalid_shape missingStatusResponse rfl
    PRODUCE sampleState _ "apple" ⟨"apple", "Apple", "🍎"⟩ true true rfl rfl

/-- C1: when identification resolves to a non-empty key different from the
current selection, the run ends with the suggested key stored, loading
cleared, no error, no prediction, and no prediction call made. -/
theorem startAnalysis_divergent_suggestion (catalog : List ProduceItem)
    (s : AppState) (o : Oracle) (f : ImageFile) (es : ProduceItem) (b64 k : String)
    (hf : s.imageFile = some f)
    (hsel : catalog.find? (fun p => p.value == s.selectedProduceKey) = some es)
    (henc : o.encode = .ok b64)
    (hid : identifyProduce catalog o.identifyResponse = .ok k)
    (hkN : k ≠ "None") (hk0 : k ≠ "") (hkS : k ≠ s.selectedProduceKey) :
    (startAnalysis catalog s o none).state.suggestedProduceKey = some k ∧
    (startAnalysis catalog s o none).state.isLoading = false ∧
    (startAnalysis catalog s o none).state.error = none ∧
    (startAnalysis catalog s o none).state.prediction = none ∧
    (startAnalysis catalog s o none).predictLabel = none := by
  simp [startAnalysis, resetAnalysisState, hf, hsel, henc, hid, hkN, hk0, hkS,
    Option.or]

/-- Witness for C1: selection "apple", identification response "Banana". -/
theorem startAnalysis_divergent_suggestion_witness :
    (startAnalysis PRODUCE sampleState ⟨.ok "b64", .ok "Banana", .thrown⟩
      none).state.suggestedProduceKey = some "banana" ∧
    (startAnalysis PRODUCE sampleState ⟨.ok "b64", .ok "Banana", .thrown⟩
      none).state.isLoading = false ∧
    (startAnalysis PRODUCE sampleState ⟨.ok "b64", .ok "Banana", .thrown⟩
      none).state.error = none ∧
    (startAnalysis PRODUCE sampleState ⟨.ok "b64", .ok "Banana", .thrown⟩
      none).state.prediction = none ∧
    (startAnalysis PRODUCE sampleState ⟨.ok "b64", .ok "Banana", .thrown⟩
      none).predictLabel = none :=
  startAnalysis_divergent_suggestion PRODUCE sampleState _
    ⟨"image/jpeg"⟩ ⟨"apple", "Apple", "🍎"⟩ "b64" "banana"
    rfl rfl rfl rfl (by decide) (by decide) (by decide)

/-- C5: when identification returns "None", the run ends failed: the
retry-with-another-photo message is set, no prediction, no pending
suggestion, loading cleared, and no prediction call made — for an arbitrary
prior state. -/
theorem startAnalysis_none_failed (catalog : List ProduceItem)
    (s : AppState) (o : Oracle) (f : ImageFile) (es : ProduceItem) (b64 : String)
    (hf : s.imageFile = some f)
    (hsel : catalog.find? (fun p => p.value == s.selectedProduceKey) = some es)
    (henc : o.encode = .ok b64)
    (hid : identifyProduce catalog o.identifyResponse = .ok "None") :
    (startAnalysis catalog s o none).state.error =
      some "No recognizable fruit or vegetable was found. Please try another photo." ∧
    (startAnalysis catalog s o none).state.prediction = none ∧
    (startAnalysis catalog s o none).state.suggestedProduceKey = none ∧
    (startAnalysis catalog s o none).state.isLoading = false ∧
    (startAnalysis catalog s o none).predictLabel = none := by
  simp [startAnalysis, resetAnalysisState, hf, hsel, henc, hid, Option.or]

/-- Witness for C5: a prior state with a stale prediction and suggestion, and
the case-insensitive identification response " NONE ". -/
theorem startAnalysis_none_failed_witness :
    (startAnalysis PRODUCE
      { sampleState with prediction := some emptyInfectionResponse,
                         suggestedProduceKey := some "banana" }
      ⟨.ok "b64", .ok " NONE ", .thrown⟩ none).state.error =
      some "No recognizable fruit or vegetable was found. Please try another photo." ∧
    (startAnalysis PRODUCE
      { sampleState with prediction := some emptyInfectionResponse,
                         suggestedProduceKey := some "banana" }
      ⟨.ok "b64", .ok " NONE ", .thrown⟩ none).state.prediction = none ∧
    (startAnalysis PRODUCE
      { sampleState with prediction := some emptyInfectionResponse,
                         suggestedProduceKey := some "banana" }
      ⟨.ok "b64", .ok " NONE ", .thrown⟩ none).state.suggestedProduceKey = none ∧
    (startAnalysis PRODUCE
      { sampleState with prediction := some emptyInfectionResponse,
                         suggestedProduceKey := some "banana" }
      ⟨.ok "b64", .ok " NONE ", .thrown⟩ none).state.isLoading = false ∧
    (startAnalysis PRODUCE
      { sampleState with prediction := some emptyInfectionResponse,
                         suggestedProduceKey := some "banana" }
      ⟨.ok "b64", .ok " NONE ", .thrown⟩ none).predictLabel = none :=
  startAnalysis_none_failed PRODUCE _ _
    ⟨"image/jpeg"⟩ ⟨"apple", "Apple", "🍎"⟩ "b64" rfl rfl rfl rfl

/-- C6: triggering analysis with no image or no selected produce sets the
local validation message, makes neither gateway call, and never sets the
loading flag. -/
theorem startAnalysis_missing_inputs (catalog : List ProduceItem)
    (s : AppState) (o : Oracle)
    (h : s.imageFile = none ∨
      catalog.find? (fun p => p.value == s.selectedProduceKey) = none) :
    (startAnalysis catalog s o none).state.error =
      some "Please select a produce item and an image first." ∧
    (startAnalysis catalog s o none).identifyCalled = false ∧
    (startAnalysis catalog s o none).predictLabel = none ∧
    (startAnalysis catalog s o none).loadingSet = false ∧
    (startAnalysis catalog s o none).state.isLoading = s.isLoading := by
  rcases h with h | h <;> simp [startAnalysis, h, Option.or]

/-- The controller state with no image loaded. -/
def noImageState : AppState := { sampleState with imageFile := none }

/-- Witness for C6: triggering analysis with no image present. -/
theorem startAnalysis_missing_inputs_witness :
    (startAnalysis PRODUCE noImageState ⟨.ok "b64", .ok "Apple", .thrown⟩
      none).state.error =
      some "Please select a produce item and an image first." ∧
    (startAnalysis PRODUCE noImageState ⟨.ok "b64", .ok "Apple", .thrown⟩
      none).identifyCalled = false ∧
    (startAnalysis PRODUCE noImageState ⟨.ok "b64", .ok "Apple", .thrown⟩
      none).predictLabel = none ∧
    (startAnalysis PRODUCE noImageState ⟨.ok "b64", .ok "Apple", .thrown⟩
      none).loadingSet = false ∧
    (startAnalysis PRODUCE noImageState ⟨.ok "b64", .ok "Apple", .thrown⟩
      none).state.isLoading = noImageState.isLoading :=
  startAnalysis_missing_inputs PRODUCE noImageState _ (Or.inl rfl)

/-- C10: when the identification response is neither "none" (in any case) nor
a case-insensitive substring of any catalog label, `identifyProduce` returns
the empty string and the controller proceeds directly to the prediction call
on the originally selected produce, raising no suggestion; and when that
prediction call succeeds, no error is shown and the prediction is stored. -/
theorem startAnalysis_unmatched_fallthrough (catalog : List ProduceItem)
    (s : AppState) (o : Oracle) (f : ImageFile) (es : ProduceItem)
    (b64 text : String)
    (hf : s.imageFile = some f)
    (hsel : catalog.find? (fun p => p.value == s.selectedProduceKey) = some es)
    (henc : o.encode = .ok b64)
    (hresp : o.identifyResponse = .ok text)
    (hnone : toLowerCase (jsTrim text) ≠ "none")
    (hnomatch : ∀ p ∈ catalog,
      jsIncludes (toLowerCase p.label) (toLowerCase (jsTrim text)) = false) :
    identifyProduce catalog (.ok text) = .ok "" ∧
    (startAnalysis catalog s o none).predictLabel = some es.label ∧
    (startAnalysis catalog s o none).state.suggestedProduceKey = none ∧
    (startAnalysis catalog s o none).identifyCalled = true ∧
    (∀ j, getRipenessPrediction o.predictResponse = .ok j →
      (startAnalysis catalog s o none).state.error = none ∧
      (startAnalysis catalog s o none).state.prediction = some j) := by
  have hfindnone : catalog.find?
      (fun p => jsIncludes (toLowerCase p.label) (toLowerCase (jsTrim text))) = none := by
    rw [List.find?_eq_none]
    intro p hp
    simp [hnomatch p hp]
  have hid : identifyProduce catalog (.ok text) = .ok "" := by
    simp [identifyProduce, hnone, hfindnone]
  refine ⟨hid, ?_, ?_, ?_, ?_⟩
  · cases hg : getRipenessPrediction o.predictResponse <;>
      simp [startAnalysis, continueAnalysis, resetAnalysisState, hf, hsel, henc,
        hresp, hid, hg, Option.or]
  · cases hg : getRipenessPrediction o.predictResponse <;>
      simp [startAnalysis, continueAnalysis, resetAnalysisState, hf, hsel, henc,
        hresp, hid, hg, Option.or]
  · cases hg : getRipenessPrediction o.predictResponse <;>
      simp [startAnalysis, continueAnalysis, resetAnalysisState, hf, hsel, henc,
        hresp, hid, hg, Option.or]
  · intro j hg
    constructor <;>
      simp [startAnalysis, continueAnalysis, resetAnalysisState, hf, hsel, henc,
        hresp, hid, hg, Option.or]

/-- Witness for C10: response "Dragonfruit" against the catalog, with a
well-formed prediction response. -/
theorem startAnalysis_unmatched_fallthrough_witness :
    identifyProduce PRODUCE (.ok "Dragonfruit") = .ok "" ∧
    (startAnalysis PRODUCE sampleState
      ⟨.ok "b64", .ok "Dragonfruit", .ok (some emptyInfectionResponse)⟩
      none).predictLabel = some "Apple" ∧
    (startAnalysis PRODUCE sampleState
      ⟨.ok "b64", .ok "Dragonfruit", .ok (some emptyInfectionResponse)⟩
      none).state.suggestedProduceKey = none ∧
    (startAnalysis PRODUCE sampleState
      ⟨.ok "b64", .ok "Dragonfruit", .ok (some emptyInfectionResponse)⟩
      none).identifyCalled = true ∧
    (startAnalysis PRODUCE sampleState
      ⟨.ok "b64", .ok "Dragonfruit", .ok (some emptyInfectionResponse)⟩
      none).state.error = none ∧
    (startAnalysis PRODUCE sampleState
      ⟨.ok "b64", .ok "Dragonfruit", .ok (some emptyInfectionResponse)⟩
      none).state.prediction = some emptyInfectionResponse := by
  have h := startAnalysis_unmatched_fallthrough PRODUCE sampleState
    ⟨.ok "b64", .ok "Dragonfruit", .ok (some emptyInfectionResponse)⟩
    ⟨"image/jpeg"⟩ ⟨"apple", "Apple", "🍎"⟩ "b64" "Dragonfruit"
    rfl rfl rfl rfl (by decide) (by decide)
  have h5 := h.2.2.2.2 emptyInfectionResponse rfl
  exact ⟨h.1, h.2.1, h.2.2.1, h.2.2.2.1, h5.1, h5.2⟩

/-- C2: from a pending suggestion with an image present, confirming updates
the selected key to the suggested one and the prediction call uses the
suggested entry's label; declining leaves the selected key unchanged and the
prediction call uses the original entry's label; both paths clear the pending
suggestion and reach the prediction call. -/
theorem handleSuggestion_confirm_decline (catalog : List ProduceItem)
    (s : AppState) (o : Oracle) (f : ImageFile) (ek es : ProduceItem)
    (b64 k : String)
    (hf : s.imageFile = some f)
    (hsg : s.suggestedProduceKey = some k) (hk0 : k ≠ "")
    (henc : o.encode = .ok b64)
    (hek : catalog.find? (fun p => p.value == k) = some ek)
    (hes : catalog.find? (fun p => p.value == s.selectedProduceKey) = some es) :
    (handleSuggestion catalog s o true).state.selectedProduceKey = k ∧
    (handleSuggestion catalog s o true).state.suggestedProduceKey = none ∧
    (handleSuggestion catalog s o true).predictLabel = some ek.label ∧
    (handleSuggestion catalog s o false).state.selectedProduceKey =
      s.selectedProduceKey ∧
    (handleSuggestion catalog s o false).state.suggestedProduceKey = none ∧
    (handleSuggestion catalog s o false).predictLabel = some es.label := by
  refine ⟨?_, ?_, ?_, ?_, ?_, ?_⟩ <;>
    cases hg : getRipenessPrediction o.predictResponse <;>
      simp [handleSuggestion, continueAnalysis, jsTruthyKey, hf, hsg, hk0, henc,
        hek, hes, hg]

/-- Witness for C2: selection "apple", pending suggestion "banana". -/
theorem handleSuggestion_confirm_decline_witness :
    (handleSuggestion PRODUCE
      { sampleState with suggestedProduceKey := some "banana" }
      ⟨.ok "b64", .thrown, .ok (some emptyInfectionResponse)⟩
      true).state.selectedProduceKey = "banana" ∧
    (handleSuggestion PRODUCE
      { sampleState with suggestedProduceKey := some "banana" }
      ⟨.ok "b64", .thrown, .ok (some emptyInfectionResponse)⟩
      true).state.suggestedProduceKey = none ∧
    (handleSuggestion PRODUCE
      { sampleState with suggestedProduceKey := some "banana" }
      ⟨.ok "b64", .thrown, .ok (some emptyInfectionResponse)⟩
      true).predictLabel = some "Banana" ∧
    (handleSuggestion PRODUCE
      { sampleState with suggestedProduceKey := some "banana" }
      ⟨.ok "b64", .thrown, .ok (some emptyInfectionResponse)⟩
      false).state.selectedProduceKey =
      ({ sampleState with suggestedProduceKey := some "banana" } :
        AppState).selectedProduceKey ∧
    (handleSuggestion PRODUCE
      { sampleState with suggestedProduceKey := some "banana" }
      ⟨.ok "b64", .thrown, .ok (some emptyInfectionResponse)⟩
      false).state.suggestedProduceKey = none ∧
    (handleSuggestion PRODUCE
      { sampleState with suggestedProduceKey := some "banana" }
      ⟨.ok "b64", .thrown, .ok (some emptyInfectionResponse)⟩
      false).predictLabel = some "Apple" :=
  handleSuggestion_confirm_decline PRODUCE _ _
    ⟨"image/jpeg"⟩ ⟨"banana", "Banana", "🍌"⟩ ⟨"apple", "Apple", "🍎"⟩
    "b64" "banana" rfl rfl (by decide) rfl rfl rfl

/-- C7 counterexample: an image-encoding failure during a suggestion confirm
is not caught — the rejection escapes `handleSuggestion` uncaught and no
user-facing error message is set. -/
theorem handleSuggestion_uncaught_cex :
    (handleSuggestion PRODUCE
      { sampleState with suggestedProduceKey := some "banana" }
      ⟨.thrown, .thrown, .thrown⟩ true).unhandled = true ∧
    (handleSuggestion PRODUCE
      { sampleState with suggestedProduceKey := some "banana" }
      ⟨.thrown, .thrown, .thrown⟩ true).state.error = none :=
  ⟨rfl, rfl⟩

/-- C7 (amended): every externally caused failure handled by `startAnalysis`
(encoding failure, identification call failure), `continueAnalysis`
(prediction call failure or malformed response), `handleCapture` and the
camera-stream effect is caught and converted into a user-facing message with
the loading flag clear and nothing escaping; the exception is an
image-encoding failure during a suggestion confirm/decline, which escapes
`handleSuggestion` uncaught with no message set, though the loading flag is
left exactly as it was (not stuck on). -/
theorem caught_failure_paths (catalog : List ProduceItem) (s : AppState)
    (o : Oracle) (f : ImageFile) (es : ProduceItem) (b64 msg : String)
    (u : Bool) :
    (s.imageFile = some f →
     catalog.find? (fun p => p.value == s.selectedProduceKey) = some es →
     o.encode = .thrown →
     (startAnalysis catalog s o none).state.error =
       some "An AI error occurred during identification. Please try again." ∧
     (startAnalysis catalog s o none).state.isLoading = false ∧
     (startAnalysis catalog s o none).unhandled = false) ∧
    (s.imageFile = some f →
     catalog.find? (fun p => p.value == s.selectedProduceKey) = some es →
     o.encode = .ok b64 → o.identifyResponse = .thrown →
     (startAnalysis catalog s o none).state.error =
       some "An AI error occurred during identification. Please try again." ∧
     (startAnalysis catalog s o none).state.isLoading = false ∧
     (startAnalysis catalog s o none).unhandled = false) ∧
    (∀ key ic ls, catalog.find? (fun p => p.value == key) = some es →
     getRipenessPrediction o.predictResponse = .error msg →
     (continueAnalysis catalog s key o ic ls).state.error =
       some "Failed to complete analysis. The model may be unavailable. Please try again later." ∧
     (continueAnalysis catalog s key o ic ls).state.isLoading = false ∧
     (continueAnalysis catalog s key o ic ls).unhandled = false) ∧
    ((handleCapture catalog s o .notReady).state.error =
       some "Camera is not ready. Please try again." ∧
     (handleCapture catalog s o .notReady).state.isCameraOpen = false ∧
     (handleCapture catalog s o .notReady).state.isLoading = s.isLoading ∧
     (handleCapture catalog s o .notReady).unhandled = false) ∧
    ((handleCapture catalog s o (.failed msg)).state.error =
       some ("Failed to capture image: " ++ msg) ∧
     (handleCapture catalog s o (.failed msg)).state.isCameraOpen = false ∧
     (handleCapture catalog s o (.failed msg)).state.isLoading = s.isLoading ∧
     (handleCapture catalog s o (.failed msg)).unhandled = false) ∧
    ((cameraStreamError s).error =
       some "Could not access the camera. Please check browser permissions and ensure no other app is using it." ∧
     (cameraStreamError s).isCameraOpen = false ∧
     (cameraStreamError s).isLoading = s.isLoading) ∧
    (s.imageFile = some f → o.encode = .thrown →
     (handleSuggestion catalog s o u).unhandled = true ∧
     (handleSuggestion catalog s o u).state.error = s.error ∧
     (handleSuggestion catalog s o u).state.isLoading = s.isLoading) := by
  refine ⟨?_, ?_, ?_, ?_, ?_, ?_, ?_⟩
  · intro hf hsel henc
    refine ⟨?_, ?_, ?_⟩ <;>
      simp [startAnalysis, resetAnalysisState, hf, hsel, henc, Option.or]
  · intro hf hsel henc hresp
    refine ⟨?_, ?_, ?_⟩ <;>
      simp [startAnalysis, identifyProduce, resetAnalysisState, hf, hsel, henc,
        hresp, Option.or]
  · intro key ic ls hfind hg
    refine ⟨?_, ?_, ?_⟩ <;> simp [continueAnalysis, hfind, hg]
  · exact ⟨rfl, rfl, rfl, rfl⟩
  · exact ⟨rfl, rfl, rfl, rfl⟩
  · exact ⟨rfl, rfl, rfl⟩
  · intro hf henc
    refine ⟨?_, ?_, ?_⟩ <;>
      cases hu : (u && jsTruthyKey s.suggestedProduceKey) <;>
        simp [handleSuggestion, hf, henc, hu]

/-- Witness for C7 (amended): the caught failure paths at concrete states and
oracles, and the uncaught suggestion-encoding path. -/
theorem caught_failure_paths_witness :
    (startAnalysis PRODUCE sampleState ⟨.thrown, .thrown, .thrown⟩
      none).state.error =
      some "An AI error occurred during identification. Please try again." ∧
    (startAnalysis PRODUCE sampleState ⟨.ok "b64", .thrown, .thrown⟩
      none).state.isLoading = false ∧
    (continueAnalysis PRODUCE sampleState "apple" ⟨.thrown, .thrown, .thrown⟩
      true true).state.error =
      some "Failed to complete analysis. The model may be unavailable. Please try again later." ∧
    (handleCapture PRODUCE sampleState ⟨.thrown, .thrown, .thrown⟩
      .notReady).state.isCameraOpen = false ∧
    (handleSuggestion PRODUCE sampleState ⟨.thrown, .thrown, .thrown⟩
      true).unhandled = true := by
  have hA := caught_failure_paths PRODUCE sampleState ⟨.thrown, .thrown, .thrown⟩
    ⟨"image/jpeg"⟩ ⟨"apple", "Apple", "🍎"⟩ "b64"
    "Failed to get prediction from Gemini API." true
  have hB := caught_failure_paths PRODUCE sampleState ⟨.ok "b64", .thrown, .thrown⟩
    ⟨"image/jpeg"⟩ ⟨"apple", "Apple", "🍎"⟩ "b64" "x" true
  exact ⟨(hA.1 rfl rfl rfl).1, (hB.2.1 rfl rfl rfl rfl).2.1,
    (hA.2.2.1 "apple" true true rfl rfl).1, hA.2.2.2.1.2.1,
    (hA.2.2.2.2.2.2 rfl rfl).1⟩

end VegnFruit
